import Mathlib

/-!
Verification development for the `envirosines` generative audio engine
(`src/audio-engine.js`, class `EnvironmentalAudioEngine`).

The JavaScript code is shallowly embedded as follows.

* JavaScript numbers are modelled by `JSNum := Option ℚ`: `none` stands for
  the non-number values `NaN`/`undefined`, which JS arithmetic, `Math.min`,
  `Math.max` and `Math.floor` all propagate, and on which `<` comparisons
  are `false`.  Finite numbers are modelled exactly as rationals.
  Division by zero (JS `Infinity`) is mapped to `none`; no call site of the
  engine divides by a zero that the claims exercise.
* The transcendental primitives `Math.sin`, `Math.cos`, `Math.asin`,
  `Math.pow(2, ·)` and the constant `Math.PI` are kept abstract as a
  parameter record `Prims`; none of the verified claims depends on their
  numeric values beyond monotonicity of `pow2` and `pow2 0 = 1` where this
  is stated explicitly.
* Web Audio `AudioParam` state (an oscillator frequency or a gain) is a
  current `value` plus the list of scheduled automation `events`;
  `cancelScheduledValues` empties the list, `setValueAtTime` /
  `linearRampToValueAtTime` / `exponentialRampToValueAtTime` append.
* The `setTimeout` based pulse scheduler is modelled as a discrete-event
  state (`Sched`): a multiset of pending timers fired in an arbitrary
  order, which is a faithful abstraction of timers with arbitrary delays.
-/

namespace Envirosines

/-- JS number: `none` is `NaN`/`undefined`, `some q` a finite number. -/
abbrev JSNum := Option ℚ

/-- JS `+` (NaN propagates). -/
def jsAdd : JSNum → JSNum → JSNum
  | some a, some b => some (a + b)
  | _, _ => none

/-- JS `-` (NaN propagates). -/
def jsSub : JSNum → JSNum → JSNum
  | some a, some b => some (a - b)
  | _, _ => none

/-- JS `*` (NaN propagates). -/
def jsMul : JSNum → JSNum → JSNum
  | some a, some b => some (a * b)
  | _, _ => none

/-- JS `/` (NaN propagates; division by zero is not modelled and yields
`none`, see the header comment). -/
def jsDiv : JSNum → JSNum → JSNum
  | some a, some b => if b = 0 then none else some (a / b)
  | _, _ => none

/-- JS `Math.min` (NaN propagates). -/
def jsMin : JSNum → JSNum → JSNum
  | some a, some b => some (min a b)
  | _, _ => none

/-- JS `Math.max` (NaN propagates). -/
def jsMax : JSNum → JSNum → JSNum
  | some a, some b => some (max a b)
  | _, _ => none

/-- JS `Math.abs` (NaN propagates). -/
def jsAbs : JSNum → JSNum
  | some a => some |a|
  | none => none

/-- JS `<`: comparisons involving NaN are `false`. -/
def jsLt : JSNum → JSNum → Bool
  | some a, some b => decide (a < b)
  | _, _ => false

/-- Truncation toward zero, as used by the JS `%` operator. -/
def jsTrunc (x : ℚ) : ℤ :=
  if 0 ≤ x then ⌊x⌋ else ⌈x⌉

/-- JS `%` on finite numbers: `a - b * trunc (a / b)`; the sign follows the
dividend, so `(-50) % 360 = -50`. -/
def jsModQ (a b : ℚ) : ℚ := a - b * jsTrunc (a / b)

/-- JS `%` (NaN propagates; `a % 0` is NaN). -/
def jsMod : JSNum → JSNum → JSNum
  | some a, some b => if b = 0 then none else some (jsModQ a b)
  | _, _ => none

/-- JS `Math.floor` as an array-index computation (`Math.floor NaN = NaN`). -/
def jsFloorI : JSNum → Option ℤ
  | some a => some ⌊a⌋
  | none => none

/-- Index arithmetic `i + k` on a possibly-NaN index. -/
def idxAdd : Option ℤ → ℤ → Option ℤ
  | some j, k => some (j + k)
  | none, _ => none

/-- `Math.min i k` on a possibly-NaN index. -/
def idxMin : Option ℤ → ℤ → Option ℤ
  | some j, k => some (min j k)
  | none, _ => none

/-- JS array subscript `r[i]`: out-of-range (in particular negative) or NaN
indices give `undefined`, modelled as `none`. -/
def idxGet (r : List ℚ) (i : Option ℤ) : JSNum :=
  match i with
  | none => none
  | some i =>
      if h : 0 ≤ i ∧ i.toNat < r.length then some (r.get ⟨i.toNat, h.2⟩)
      else none

/-- Abstract transcendental primitives of the JS `Math` object
(see header comment). -/
structure Prims where
  sinQ : ℚ → ℚ
  cosQ : ℚ → ℚ
  asinQ : ℚ → ℚ
  pow2 : ℚ → ℚ
  piQ : ℚ

/-- `Math.sin` lifted to JS numbers (`Math.sin NaN = NaN`). -/
def jsSin (P : Prims) : JSNum → JSNum
  | some a => some (P.sinQ a)
  | none => none

/-- `Math.cos` lifted to JS numbers. -/
def jsCos (P : Prims) : JSNum → JSNum
  | some a => some (P.cosQ a)
  | none => none

/-- `Math.asin` lifted to JS numbers. -/
def jsAsin (P : Prims) : JSNum → JSNum
  | some a => some (P.asinQ a)
  | none => none

/-- `Math.pow(2, ·)` lifted to JS numbers. -/
def jsPow2 (P : Prims) : JSNum → JSNum
  | some a => some (P.pow2 a)
  | none => none

/-- Playback mode (`this.mode`); any string other than `'pulse'`/`'click'`
behaves as the drone default branch. -/
inductive Mode
  | drone
  | pulse
  | click
deriving DecidableEq, Repr

/-- Tonal scale (`this.scale`); `other` is any unrecognized name, which
takes the `default` branch of the `switch` in `getScaleTones`. -/
inductive Scale
  | dreyblatt
  | harmonic
  | slendro
  | pelog
  | quartertone
  | other
deriving DecidableEq, Repr

/-- Slendro base pentatonic ratios (source line 596). -/
def slendroBase : List ℚ := [1, 1.2, 1.4, 1.68, 1.87]

/-- Pelog base heptatonic ratios (source line 600). -/
def pelogBase : List ℚ := [1, 1.122, 1.26, 1.414, 1.587, 1.682, 1.888]

/-- The `scaleRatios` table chosen by the `switch (this.scale)` at source
lines 588-608.  `pow2` is the abstract `Math.pow(2, ·)`. -/
def scaleRatioTable (pow2 : ℚ → ℚ) : Scale → List ℚ
  | .dreyblatt =>
      [1.0, 1.125, 1.25, 1.375, 1.5, 1.625, 1.75, 1.875, 2.0, 2.125, 2.25,
       2.375, 2.5, 2.625, 2.75, 2.875, 3.0, 3.125, 3.25, 3.375]
  | .harmonic =>
      [1, 2, 3, 4, 5, 6, 7, 8, 9, 10, 11, 12, 13, 14, 15, 16, 17, 18, 19, 20]
  | .slendro =>
      slendroBase ++ slendroBase.map (fun r => r * 2) ++
        slendroBase.map (fun r => r * 3) ++ slendroBase.map (fun r => r * 4)
  | .pelog =>
      pelogBase ++ pelogBase.map (fun r => r * 2) ++
        pelogBase.map (fun r => r * 3)
  | .quartertone =>
      (List.range 24).map (fun i : ℕ => pow2 ((i : ℚ) / 24))
  | .other =>
      [1.0, 1.125, 1.25, 1.5, 1.75, 2.0]

/-- The heading-quadrant tone selection of `getScaleTones`
(source lines 610-658), written against an arbitrary ratio table exactly as
the source is.  Entries can be `undefined` (`none`) when an index falls
outside the table. -/
def selectTones (scaleRatios : List ℚ) (heading : JSNum) : List JSNum :=
  let headingNorm := jsMod heading (some 360)
  let L : ℤ := scaleRatios.length
  if jsLt headingNorm (some 90) then
    let t := jsDiv headingNorm (some 90)
    let startIdx := jsFloorI (jsMul t (some ((min 4 (L - 10) : ℤ) : ℚ)))
    [idxGet scaleRatios startIdx,
     idxGet scaleRatios (idxMin (idxAdd startIdx 2) (L - 1)),
     idxGet scaleRatios (idxMin (idxAdd startIdx 4) (L - 1)),
     idxGet scaleRatios (idxMin (idxAdd startIdx 6) (L - 1)),
     idxGet scaleRatios (idxMin (idxAdd startIdx 8) (L - 1)),
     idxGet scaleRatios (idxMin (idxAdd startIdx 10) (L - 1))]
  else if jsLt headingNorm (some 180) then
    let t := jsDiv (jsSub headingNorm (some 90)) (some 90)
    let startIdx :=
      jsFloorI (jsAdd (some 5) (jsMul t (some ((min 5 (L - 15) : ℤ) : ℚ))))
    [idxGet scaleRatios (idxMin startIdx (L - 1)),
     idxGet scaleRatios (idxMin (idxAdd startIdx 1) (L - 1)),
     idxGet scaleRatios (idxMin (idxAdd startIdx 3) (L - 1)),
     idxGet scaleRatios (idxMin (idxAdd startIdx 5) (L - 1)),
     idxGet scaleRatios (idxMin (idxAdd startIdx 7) (L - 1)),
     idxGet scaleRatios (idxMin (idxAdd startIdx 9) (L - 1))]
  else if jsLt headingNorm (some 270) then
    let t := jsDiv (jsSub headingNorm (some 180)) (some 90)
    let startIdx :=
      jsFloorI (jsAdd (some 10) (jsMul t (some ((min 6 (L - 16) : ℤ) : ℚ))))
    [idxGet scaleRatios (idxMin startIdx (L - 1)),
     idxGet scaleRatios (idxMin (idxAdd startIdx 2) (L - 1)),
     idxGet scaleRatios (idxMin (idxAdd startIdx 4) (L - 1)),
     idxGet scaleRatios (idxMin (idxAdd startIdx 6) (L - 1)),
     idxGet scaleRatios (idxMin (idxAdd startIdx 8) (L - 1)),
     idxGet scaleRatios (some (L - 1))]
  else
    let t := jsDiv (jsSub headingNorm (some 270)) (some 90)
    let spread := jsFloorI (jsMul t (some 3))
    [idxGet scaleRatios (idxMin (idxAdd spread 0) (L - 1)),
     idxGet scaleRatios (idxMin (idxAdd spread 4) (L - 1)),
     idxGet scaleRatios (idxMin (idxAdd spread 8) (L - 1)),
     idxGet scaleRatios (idxMin (idxAdd spread 12) (L - 1)),
     idxGet scaleRatios (idxMin (idxAdd spread 16) (L - 1)),
     idxGet scaleRatios (some (L - 1))]

/-- `getScaleTones()` (source lines 584-659): table selected by the scale,
then the quadrant selection on the `%`-normalized heading. -/
def getScaleTones (pow2 : ℚ → ℚ) (scale : Scale) (heading : JSNum) :
    List JSNum :=
  selectTones (scaleRatioTable pow2 scale) heading

/-- A scheduled automation event on a Web Audio `AudioParam`:
`setValueAtTime`, `linearRampToValueAtTime`, `exponentialRampToValueAtTime`,
each with a target value and a time.  `cancelScheduledValues` empties the
event list. -/
inductive GEvent
  | setV (v t : JSNum)
  | ramp (v t : JSNum)
  | expRamp (v t : JSNum)
deriving DecidableEq, Repr

/-- An `AudioParam` (an oscillator `frequency` or a gain node `gain`):
its current `value` together with its scheduled automation events. -/
structure Node where
  value : JSNum
  events : List GEvent
deriving DecidableEq, Repr

/-- The engine state relevant to the audio-parameter claims: the
environmental snapshot fields, the configuration, and the per-voice
`AudioParam` state (constructor lines 2-38 plus the graph built by
`start()`).  The vestigial fields `pendingFrequencyUpdates`,
`trafficOscillator` and the display callback `onFrequencyUpdate` are not
modelled: the first variant never uses them outside the constructor and
`stop()`. -/
structure Engine where
  isRunning : Bool
  mode : Mode
  scale : Scale
  latitude : JSNum
  longitude : JSNum
  speed : JSNum
  temperature : JSNum
  humidity : JSNum
  heading : JSNum
  timeOfDay : JSNum
  populationDensity : JSNum
  trafficDensity : JSNum
  elevation : JSNum
  rainfall : JSNum
  fundamentalFreq : JSNum
  sunElevation : JSNum
  lastHeading : JSNum
  oscillators : List Node
  gainNodes : List Node
  panners : List JSNum
  lowPassFreq : JSNum
  highPassFreq : JSNum
  dryGainValue : JSNum
  wetGainValue : JSNum
deriving DecidableEq, Repr

/-- The engine right after `start()` succeeded: constructor defaults
(lines 15-32) plus the audio graph of lines 55-111 (8 oscillators at
200 Hz, gains at 0, pans centered, filters at 5000/100 Hz, dry/wet at
0.85/0.15). -/
def startedEngine : Engine where
  isRunning := true
  mode := .drone
  scale := .dreyblatt
  latitude := some 0
  longitude := some 0
  speed := some 0
  temperature := some 20
  humidity := some 50
  heading := some 0
  timeOfDay := some 0.5
  populationDensity := some 0.5
  trafficDensity := some 0
  elevation := some 0
  rainfall := some 0
  fundamentalFreq := some 200
  sunElevation := some 0
  lastHeading := some 0
  oscillators := List.replicate 8 { value := some 200, events := [] }
  gainNodes := List.replicate 8 { value := some 0, events := [] }
  panners := List.replicate 8 (some 0)
  lowPassFreq := some 5000
  highPassFreq := some 100
  dryGainValue := some 0.85
  wetGainValue := some 0.15

/-- The effect of `setOscillatorFrequency(index, frequency)` on the
oscillator list (source lines 661-674): after the guard, cancel the
scheduled values, pin the current value at `now` and schedule an
exponential ramp to the target clamped into `[20, 20000]` ending at
`now + 2.0`. -/
def setOscFreqList (now : ℚ) (oscillators : List Node) (index : ℕ)
    (frequency : JSNum) : List Node :=
  match oscillators.get? index with
  | none => oscillators
  | some osc =>
      let organicFreq := frequency
      let node : Node :=
        { value := osc.value,
          events := [GEvent.setV osc.value (some now),
                     GEvent.expRamp (jsMax (some 20) (jsMin (some 20000) organicFreq))
                       (some (now + 2.0))] }
      oscillators.set index node

/-- `setOscillatorFrequency(index, frequency)` (source lines 661-674): it
reads and writes only `this.oscillators`. -/
def setOscillatorFrequency (now : ℚ) (e : Engine) (index : ℕ)
    (frequency : JSNum) : Engine :=
  { e with oscillators := setOscFreqList now e.oscillators index frequency }

/-- `fadeIn(oscIndex, duration, targetVolume)` (source lines 334-349);
`rIr` and `rFl` are the two `Math.random()` draws. -/
def fadeIn (now : ℚ) (e : Engine) (oscIndex : ℕ)
    (duration targetVolume : JSNum) (rIr rFl : ℚ) : Engine :=
  if e.isRunning = false then e
  else
    match e.gainNodes.get? oscIndex with
    | none => e
    | some gainNode =>
        let irregularity : ℚ := (rIr - 0.5) * 0.02
        let organicDuration := jsMax (some 0.01) (jsAdd duration (some irregularity))
        let flutter : ℚ := (rFl - 0.5) * 0.001
        let organicVolume := jsMul targetVolume (some (1 + flutter))
        let reverseAttackMultiplier :=
          jsAdd (some 1) (jsMul (jsSub (some 1) e.populationDensity) (some 2))
        let finalDuration := jsMul organicDuration reverseAttackMultiplier
        let node : Node :=
          { value := gainNode.value,
            events := [GEvent.setV (some 0) (some now),
                       GEvent.ramp organicVolume (jsAdd (some now) finalDuration)] }
        { e with gainNodes := e.gainNodes.set oscIndex node }

/-- `fadeOut(oscIndex, duration)` (source lines 351-372); `rIr` is the
`Math.random()` draw of the non-rural branch.  When
`populationDensity < 0.3` the gain is ramped to 0 over a fixed 0.001 s. -/
def fadeOut (now : ℚ) (e : Engine) (oscIndex : ℕ)
    (duration : JSNum) (rIr : ℚ) : Engine :=
  if e.isRunning = false then e
  else
    match e.gainNodes.get? oscIndex with
    | none => e
    | some gainNode =>
        let ruralCutoff := jsLt e.populationDensity (some 0.3)
        if ruralCutoff then
          let node : Node :=
            { value := gainNode.value,
              events := [GEvent.setV gainNode.value (some now),
                         GEvent.ramp (some 0) (some (now + 0.001))] }
          { e with gainNodes := e.gainNodes.set oscIndex node }
        else
          let irregularity : ℚ := (rIr - 0.5) * 0.02
          let organicDuration := jsMax (some 0.01) (jsAdd duration (some irregularity))
          let fadeMultiplier := e.populationDensity
          let finalDuration := jsMul organicDuration fadeMultiplier
          let node : Node :=
            { value := gainNode.value,
              events := [GEvent.setV gainNode.value (some now),
                         GEvent.ramp (some 0) (jsAdd (some now) finalDuration)] }
          { e with gainNodes := e.gainNodes.set oscIndex node }

/-- `calculateSunElevation()` (source lines 423-434), with
`declination = 0` kept literally as in the source. -/
def calculateSunElevation (P : Prims) (e : Engine) : JSNum :=
  let hourAngle := jsMul (jsMul (jsSub e.timeOfDay (some 0.5)) (some P.piQ)) (some 2)
  let declination : JSNum := some 0
  let latRad := jsDiv (jsMul e.latitude (some P.piQ)) (some 180)
  let elevation :=
    jsDiv (jsMul (jsAsin P
      (jsAdd (jsMul (jsSin P latRad) (jsSin P declination))
             (jsMul (jsMul (jsCos P latRad) (jsCos P declination)) (jsCos P hourAngle))))
      (some 180)) (some P.piQ)
  jsMax (some (-90)) (jsMin (some 90) elevation)

/-- The tremolo schedule written by the rainfall branch of
`updateFrequencies` (source lines 569-573): the loop
`for (let t = 0; t < 2; t += 0.05)` runs 40 times; the floating-point
accumulation of `t` is idealized as `k * 0.05`. -/
def tremoloEvents (P : Prims) (now : ℚ)
    (tremoloRate tremoloDepth currentGain : JSNum) : List GEvent :=
  (List.range 40).map (fun k =>
    let t : ℚ := k * 0.05
    let phase := jsMul (jsMul (jsMul (some t) tremoloRate) (some P.piQ)) (some 2)
    let modulation :=
      jsAdd (jsSub (some 1) (jsMul tremoloDepth (some 0.5)))
            (jsMul (jsMul tremoloDepth (some 0.5)) (jsSin P phase))
    GEvent.ramp (jsMul currentGain modulation) (some (now + t)))

/-- One step of the `harmonicIndices.forEach` loop of `updateFrequencies`
(source lines 489-525): `p = (oscIdx, i)` runs over
`[(1,0), (2,1), (4,2), (5,3), (6,4), (7,5)]`. -/
def harmonicStep (now : ℚ) (mode : Mode) (compassTones : List JSNum)
    (useSubharmonics : Bool) (fund : JSNum) (acc : List Node) (p : ℕ × ℕ) :
    List Node :=
  let oscIdx := p.1
  let i := p.2
  let tone := (compassTones.get? (i % compassTones.length)).getD none
  let octaveMultiplier : ℕ := i / compassTones.length + 1
  let harmonic :=
    if useSubharmonics then jsDiv fund (jsMul tone (some (octaveMultiplier : ℚ)))
    else jsMul (jsMul fund tone) (some (octaveMultiplier : ℚ))
  let harmonic :=
    match mode with
    | .pulse =>
        if oscIdx ≤ 2 then jsMul harmonic (some 0.25)
        else if 5 ≤ oscIdx then jsMul harmonic (some 4.0)
        else harmonic
    | .click =>
        if oscIdx ≤ 2 then jsMul harmonic (some 0.125)
        else if 5 ≤ oscIdx then jsMul harmonic (some 8.0)
        else harmonic
    | .drone =>
        if oscIdx = 1 ∨ oscIdx = 2 then jsMul harmonic (some 1.0)
        else if oscIdx = 6 ∨ oscIdx = 7 then jsMul harmonic (some 8.0)
        else if oscIdx = 5 then jsMul harmonic (some 4.0)
        else harmonic
  setOscFreqList now acc oscIdx harmonic

/-- The per-gain-node action of the rainfall branch of `updateFrequencies`
(source lines 563-575): a node with positive current gain has its
scheduled values cancelled and replaced by the tremolo schedule; any other
node is untouched. -/
def applyTremolo (P : Prims) (now : ℚ) (tremoloRate tremoloDepth : JSNum)
    (g : Node) : Node :=
  if jsLt (some 0) g.value then
    { value := g.value,
      events := GEvent.setV g.value (some now) ::
        tremoloEvents P now tremoloRate tremoloDepth g.value }
  else g

/-- `updateFrequencies()` (source lines 436-582).  `r1` is the
`Math.random()` draw for the mode multiplier (line 456/458/460), `r2` the
draw for `randomDrift` (line 466), `r3` the draw for `tremoloRate`
(line 559).  The `onFrequencyUpdate` display callback (lines 578-581)
reads state but changes none, and is not modelled. -/
def updateFrequencies (P : Prims) (r1 r2 r3 : ℚ) (now : ℚ) (e : Engine) :
    Engine :=
  if e.isRunning = false then e
  else
    let hours := jsMul e.timeOfDay (some 24)
    let tempNorm := jsDiv (jsAdd e.temperature (some 20)) (some 60)
    let tempReference := jsAdd (some 100) (jsMul tempNorm (some 700))
    let latNorm := jsDiv (jsAbs e.latitude) (some 90)
    let latOctave := jsPow2 P latNorm
    let phaseShift :=
      jsMul (jsMul (jsDiv (jsSub hours (some 12)) (some 24)) (some 2)) (some P.piQ)
    let timeModulation := jsPow2 P (jsMul (jsSin P phaseShift) (some 0.5))
    let densityShift := jsPow2 P (jsMul e.populationDensity (some 0.5))
    let baseFreq := jsMul (jsMul (jsMul tempReference latOctave) timeModulation) densityShift
    let fundamentalFreq :=
      match e.mode with
      | .pulse => jsMul baseFreq (some (0.5 + r1 * 2.5))
      | .click => jsMul baseFreq (some (0.25 + r1 * 8))
      | .drone => jsMul baseFreq (some (0.75 + r1 * 0.5))
    let tempDrift := jsMul (jsSub e.temperature (some 20)) (some 0.5)
    let randomDrift := jsMul (some (r2 - 0.5)) (jsAbs tempDrift)
    let sunElevation := calculateSunElevation P e
    let elevationNorm := jsMax (some (-20)) (jsMin (some 70) sunElevation)
    let elevationFactor := jsDiv (jsAdd elevationNorm (some 20)) (some 90)
    let sunBasedLPF := jsAdd (some 500) (jsMul elevationFactor (some 4500))
    let latNormFilter := jsDiv (jsAdd e.latitude (some 90)) (some 180)
    let latModulation := jsMul latNormFilter (some 1000)
    let lowPassV := jsAdd sunBasedLPF latModulation
    let sunBasedHPF := jsSub (some 200) (jsMul elevationFactor (some 150))
    let lonNorm := jsDiv (jsAdd e.longitude (some 180)) (some 360)
    let lonModulation := jsMul lonNorm (some 50)
    let highPassV := jsAdd sunBasedHPF lonModulation
    let compassTones := getScaleTones P.pow2 e.scale e.heading
    let useSubharmonics := jsLt (some 200) fundamentalFreq
    let fund := jsAdd fundamentalFreq randomDrift
    let oscs1 := setOscFreqList now e.oscillators 0 fund
    let oscs2 := [(1, 0), (2, 1), (4, 2), (5, 3), (6, 4), (7, 5)].foldl
      (harmonicStep now e.mode compassTones useSubharmonics fund) oscs1
    let speedNorm := jsMin (jsDiv e.speed (some 35.8)) (some 1)
    let speedFreq := jsAdd (some 50) (jsMul speedNorm (some 950))
    let speedFreq :=
      match e.mode with
      | .pulse | .click =>
          if jsLt speedNorm (some 0.5) then jsMul speedFreq (some 0.25)
          else jsMul speedFreq (some 4.0)
      | .drone => speedFreq
    let oscs3 := setOscFreqList now oscs2 3 speedFreq
    let humidityNorm := jsDiv e.humidity (some 100)
    let dryV := jsSub (some 0.85) (jsMul humidityNorm (some 0.30))
    let wetV := jsAdd (some 0.15) (jsMul humidityNorm (some 0.45))
    let headingRad := jsDiv (jsMul e.heading (some P.piQ)) (some 180)
    let panPosition := jsMul (jsSin P headingRad) (some 0.7)
    let newPans := e.panners.mapIdx (fun i _ =>
      let densitySpread := jsSub (some 1.0) (jsMul e.populationDensity (some 0.7))
      let baseOffset : JSNum := some (((i : ℚ) - 3.5) * 0.05)
      let offset := jsMul baseOffset densitySpread
      jsMax (some (-0.8)) (jsMin (some 0.8) (jsAdd panPosition offset)))
    let tremoloRate : JSNum := some (4 + r3 * 2)
    let rainfallNorm := jsMin (jsDiv e.rainfall (some 10)) (some 1)
    let tremoloDepth := jsAdd (some 0.1) (jsMul rainfallNorm (some 0.7))
    let newGains :=
      if jsLt (some 0) e.rainfall then
        e.gainNodes.map (applyTremolo P now tremoloRate tremoloDepth)
      else e.gainNodes
    { e with fundamentalFreq := fundamentalFreq, sunElevation := sunElevation,
             lowPassFreq := lowPassV, highPassFreq := highPassV,
             oscillators := oscs3, lastHeading := e.heading,
             dryGainValue := dryV, wetGainValue := wetV, panners := newPans,
             gainNodes := newGains }

/-- `setEnvironmentalData(lat, lon, speed, temp, humidity, heading,
timeOfDay, populationDensity = 0.5, trafficDensity = 0.0, elevation = 0,
rainfall = 0)` (source lines 407-421).  The four JS default parameters are
modelled by `Option JSNum` arguments: an omitted / `undefined` argument is
the outer `none` and is replaced by the documented default; an explicitly
passed number (or NaN) is `some v` and is stored verbatim. -/
def setEnvironmentalData (P : Prims) (r1 r2 r3 : ℚ) (now : ℚ)
    (lat lon speed temp humidity heading timeOfDay : JSNum)
    (populationDensityArg trafficDensityArg elevationArg rainfallArg : Option JSNum)
    (e : Engine) : Engine :=
  let e := { e with
    latitude := lat, longitude := lon, speed := speed, temperature := temp,
    humidity := humidity, heading := heading, timeOfDay := timeOfDay,
    populationDensity := populationDensityArg.getD (some 0.5),
    trafficDensity := trafficDensityArg.getD (some 0),
    elevation := elevationArg.getD (some 0),
    rainfall := rainfallArg.getD (some 0) }
  updateFrequencies P r1 r2 r3 now e

/-- A concrete instance of the abstract primitives, used for closed
counterexample states (the claims settled on it do not depend on the
primitives' values). -/
def P0 : Prims where
  sinQ := fun _ => 0
  cosQ := fun _ => 0
  asinQ := fun _ => 0
  pow2 := fun _ => 1
  piQ := 0

/-- Waveform palette accepted by `setWaveform` (source lines 148-176);
`other` stands for the plain `osc.type = waveform` fallback branch. -/
inductive Waveform
  | sine
  | organ
  | square
  | metallic
  | harsh
  | other
deriving DecidableEq, Repr

/-- Kind of a pending `setTimeout` callback of the pulse scheduler:

* `outer` — the wait timer created at source line 243 by
  `scheduleSporadicPulse`; its handle is pushed onto `sporadicTimers`
  (line 331).
* `inner` — the hold timer created inside the outer callback (line 323 in
  drone/pulse mode, line 298 in click mode); its handle is **not** pushed
  onto `sporadicTimers`, and on firing it calls `scheduleSporadicPulse`
  again. -/
inductive TKind
  | outer
  | inner
deriving DecidableEq, Repr

/-- A pending `setTimeout` entry: its JS timer handle `id`, the voice whose
cycle it belongs to, and its kind. -/
structure STimer where
  id : ℕ
  voice : ℕ
  kind : TKind
deriving DecidableEq, Repr

/-- The timer bookkeeping of the engine: the live flag, the configuration,
the next fresh timer handle, the multiset of pending timers, and the
`this.sporadicTimers` handle list.  Timers fire in an arbitrary order (see
the header comment). -/
structure Sched where
  isRunning : Bool
  mode : Mode
  waveform : Waveform
  nextId : ℕ
  pending : List STimer
  sporadicTimers : List ℕ
deriving DecidableEq, Repr

/-- `scheduleSporadicPulse(oscIndex)` as timer bookkeeping (source lines
183-332): create the outer wait timer and push its handle onto
`sporadicTimers`.  The randomized interval/duration draws do not affect
which timers exist, only when they fire, and firing order is already
arbitrary in this model. -/
def schedulePulse (s : Sched) (v : ℕ) : Sched :=
  { s with
    pending := s.pending ++ [{ id := s.nextId, voice := v, kind := .outer }],
    sporadicTimers := s.sporadicTimers ++ [s.nextId],
    nextId := s.nextId + 1 }

/-- `startSporadicOscillators()` (source lines 130-134). -/
def startSporadic (s : Sched) : Sched :=
  (List.range 8).foldl schedulePulse s

/-- `setWaveform(waveform)` (source lines 148-176): updates the waveform
and re-timbres the oscillators; it touches no timer state. -/
def setWaveformS (s : Sched) (w : Waveform) : Sched :=
  { s with waveform := w }

/-- `setMode(mode)` (source lines 136-146): set the mode, re-apply the
waveform, `clearTimeout` every handle recorded in `sporadicTimers`, empty
that list, and schedule all 8 voices afresh. -/
def setModeS (s : Sched) (m : Mode) : Sched :=
  let s := { s with mode := m }
  let s := setWaveformS s s.waveform
  let s := { s with
    pending := s.pending.filter (fun t => ¬ t.id ∈ s.sporadicTimers),
    sporadicTimers := [] }
  startSporadic s

/-- Fire the pending timer with handle `tid` (no-op if it is not pending).
The callback's first action is the `isRunning` guard (source lines 244,
299, 324).  A live outer callback spawns the untracked inner hold timer; a
live inner callback calls `scheduleSporadicPulse` for its voice — in click
mode the inner timer skips the fade-out, which does not change the timer
bookkeeping. -/
def fire (s : Sched) (tid : ℕ) : Sched :=
  match s.pending.find? (fun t => t.id == tid) with
  | none => s
  | some t =>
      let s := { s with pending := s.pending.filter (fun u => ¬ u.id == tid) }
      if s.isRunning = false then s
      else
        match t.kind with
        | .outer =>
            { s with
              pending := s.pending ++ [{ id := s.nextId, voice := t.voice, kind := .inner }],
              nextId := s.nextId + 1 }
        | .inner => schedulePulse s t.voice

/-- Number of live scheduler chains for voice `v`: each chain owns exactly
one pending timer at any time. -/
def chainCount (s : Sched) (v : ℕ) : ℕ :=
  (s.pending.filter (fun t => t.voice == v)).length

/-- A running scheduler in which voice 0 is in its hold phase (its pending
timer is the untracked inner timer, handle 8, spawned when its original
outer timer 0 fired) and voices 1-7 are waiting on their tracked outer
timers 1-7.  Handle 0 stays in `sporadicTimers` as a stale entry, exactly
as in the JS code. -/
def schedHolding : Sched where
  isRunning := true
  mode := .drone
  waveform := .sine
  nextId := 9
  pending :=
    [{ id := 8, voice := 0, kind := .inner },
     { id := 1, voice := 1, kind := .outer },
     { id := 2, voice := 2, kind := .outer },
     { id := 3, voice := 3, kind := .outer },
     { id := 4, voice := 4, kind := .outer },
     { id := 5, voice := 5, kind := .outer },
     { id := 6, voice := 6, kind := .outer },
     { id := 7, voice := 7, kind := .outer }]
  sporadicTimers := [0, 1, 2, 3, 4, 5, 6, 7]

/-- A running scheduler in which all 8 voices are waiting on their tracked
outer timers (the state right after `start()`). -/
def schedWaiting : Sched where
  isRunning := true
  mode := .drone
  waveform := .sine
  nextId := 8
  pending :=
    [{ id := 0, voice := 0, kind := .outer },
     { id := 1, voice := 1, kind := .outer },
     { id := 2, voice := 2, kind := .outer },
     { id := 3, voice := 3, kind := .outer },
     { id := 4, voice := 4, kind := .outer },
     { id := 5, voice := 5, kind := .outer },
     { id := 6, voice := 6, kind := .outer },
     { id := 7, voice := 7, kind := .outer }]
  sporadicTimers := [0, 1, 2, 3, 4, 5, 6, 7]

/-! ### Frame lemmas

`updateFrequencies` never writes the environmental snapshot fields; these
projections let the claim proofs see through the update pipeline. -/

/-- `updateFrequencies` never writes the environmental snapshot fields. -/
lemma updateFrequencies_env_frame (P : Prims) (r1 r2 r3 now : ℚ) (e : Engine) :
    (updateFrequencies P r1 r2 r3 now e).temperature = e.temperature
    ∧ (updateFrequencies P r1 r2 r3 now e).populationDensity = e.populationDensity
    ∧ (updateFrequencies P r1 r2 r3 now e).trafficDensity = e.trafficDensity
    ∧ (updateFrequencies P r1 r2 r3 now e).elevation = e.elevation
    ∧ (updateFrequencies P r1 r2 r3 now e).rainfall = e.rainfall := by
  unfold updateFrequencies
  split <;> exact ⟨rfl, rfl, rfl, rfl, rfl⟩

/-! ### Claim C1 -/

/-- C1: for every voice index holding an oscillator and every numeric
target frequency — including extreme or garbage values such as `1e9` or
`-50` — the frequency value `setOscillatorFrequency` actually schedules on
the oscillator (the exponential-ramp target) is `max 20 (min 20000 f)`,
which lies within `[20, 20000]` Hz. -/
theorem C1_scheduled_frequency_clamped (now : ℚ) (e : Engine) (index : ℕ)
    (f : ℚ) (osc : Node) (hosc : e.oscillators.get? index = some osc) :
    (setOscillatorFrequency now e index (some f)).oscillators.get? index =
      some { value := osc.value,
             events := [GEvent.setV osc.value (some now),
                        GEvent.expRamp (some (max 20 (min 20000 f))) (some (now + 2.0))] }
    ∧ 20 ≤ max 20 (min 20000 f) ∧ max 20 (min 20000 f) ≤ 20000 := by
  have hlt : index < e.oscillators.length := by
    rcases List.get?_eq_some.mp hosc with ⟨h, _⟩
    exact h
  refine ⟨?_, le_max_left _ _, max_le (by norm_num) (min_le_left _ _)⟩
  show (setOscFreqList now e.oscillators index (some f)).get? index = _
  unfold setOscFreqList
  rw [hosc]
  simpa [jsMax, jsMin] using List.get?_set_eq_of_lt _ hlt

/-- Witness for C1 at the started engine, voice 0, garbage input `1e9`. -/
theorem C1_scheduled_frequency_clamped_witness :
    (setOscillatorFrequency 0 startedEngine 0 (some 1000000000)).oscillators.get? 0 =
      some { value := some 200,
             events := [GEvent.setV (some 200) (some 0),
                        GEvent.expRamp (some (max 20 (min 20000 1000000000))) (some (0 + 2.0))] }
    ∧ (20 : ℚ) ≤ max 20 (min 20000 1000000000)
    ∧ (max 20 (min 20000 1000000000) : ℚ) ≤ 20000 :=
  C1_scheduled_frequency_clamped 0 startedEngine 0 1000000000
    { value := some 200, events := [] } (by with_unfolding_all decide)

/-! ### Claim C9 -/

/-- C9: whenever the population density is a number below the rural
threshold 0.3 (in particular 0.1), a `fadeOut` call on a live gain node
ramps its gain to 0 within at most 2 ms — the scheduled stop time is
`now + 0.001`, regardless of the randomly drawn base fade-out duration
passed in. -/
theorem C9_rural_fadeOut_hard_stop (now : ℚ) (e : Engine) (oscIndex : ℕ)
    (duration : JSNum) (rIr : ℚ) (g : Node) (d : ℚ)
    (hrun : e.isRunning = true) (hg : e.gainNodes.get? oscIndex = some g)
    (hd : e.populationDensity = some d) (hrural : d < 0.3) :
    ∃ stopTime : ℚ, stopTime - now ≤ 0.002 ∧
      (fadeOut now e oscIndex duration rIr).gainNodes.get? oscIndex =
        some { value := g.value,
               events := [GEvent.setV g.value (some now),
                          GEvent.ramp (some 0) (some stopTime)] } := by
  have hlt : oscIndex < e.gainNodes.length := by
    rcases List.get?_eq_some.mp hg with ⟨h, _⟩
    exact h
  refine ⟨now + 0.001, by norm_num, ?_⟩
  unfold fadeOut
  rw [hrun, hg, hd]
  simp only [Bool.false_eq_true, if_false, jsLt, decide_eq_true_eq, if_pos hrural]
  simpa using List.get?_set_eq_of_lt _ hlt

/-- Witness for C9: rural density 0.1, a large random base duration. -/
theorem C9_rural_fadeOut_hard_stop_witness :
    ∃ stopTime : ℚ, stopTime - 0 ≤ 0.002 ∧
      (fadeOut 0 { startedEngine with populationDensity := some 0.1 } 0 (some 6) 0.5).gainNodes.get? 0 =
        some { value := some 0,
               events := [GEvent.setV (some 0) (some 0),
                          GEvent.ramp (some 0) (some stopTime)] } :=
  C9_rural_fadeOut_hard_stop 0 { startedEngine with populationDensity := some 0.1 } 0
    (some 6) 0.5 { value := some 0, events := [] } 0.1
    rfl (by with_unfolding_all decide) rfl (by norm_num)

/-! ### Claim C2 -/

/-- C2 counterexample: `setEnvironmentalData` performs no NaN
substitution.  On a running engine with a NaN temperature (all other
fields valid numbers), the frequency scheduled on voice 0 is NaN — the
exponential-ramp target is `none` — so a NaN reaches a computed voice
frequency, contradicting the claimed neutral-default policy. -/
theorem C2_nan_temperature_counterexample :
    ((setEnvironmentalData P0 0.5 0.5 0.5 0 (some 0) (some 0) (some 0) none
        (some 50) (some 0) (some 0.5) none none none none
        startedEngine).oscillators.get? 0).map Node.events =
      some [GEvent.setV (some 200) (some 0), GEvent.expRamp none (some 2)] := by
  with_unfolding_all decide

/-- C2 amended: `setEnvironmentalData` stores the seven required fields
verbatim; only the omitted trailing optional parameters receive the
documented defaults (density 0.5, traffic 0, elevation 0, rainfall 0).  A
NaN (or `undefined`) temperature is stored as-is and propagates through
the frequency math into the scheduled voice-0 frequency, which the
`[20, 20000]` clamp maps to NaN rather than to a number. -/
theorem C2_no_nan_substitution (P : Prims) (r1 r2 r3 now : ℚ)
    (lat lon speed temp humidity heading timeOfDay : JSNum) (e : Engine) :
    ((setEnvironmentalData P r1 r2 r3 now lat lon speed temp humidity heading
        timeOfDay none none none none e).temperature = temp
      ∧ (setEnvironmentalData P r1 r2 r3 now lat lon speed temp humidity heading
          timeOfDay none none none none e).populationDensity = some 0.5
      ∧ (setEnvironmentalData P r1 r2 r3 now lat lon speed temp humidity heading
          timeOfDay none none none none e).trafficDensity = some 0
      ∧ (setEnvironmentalData P r1 r2 r3 now lat lon speed temp humidity heading
          timeOfDay none none none none e).elevation = some 0
      ∧ (setEnvironmentalData P r1 r2 r3 now lat lon speed temp humidity heading
          timeOfDay none none none none e).rainfall = some 0)
    ∧ ((setEnvironmentalData P0 0.5 0.5 0.5 0 (some 0) (some 0) (some 0) none
          (some 50) (some 0) (some 0.5) none none none none
          startedEngine).oscillators.get? 0).map Node.events =
        some [GEvent.setV (some 200) (some 0), GEvent.expRamp none (some 2)] := by
  constructor
  · refine ⟨?_, ?_, ?_, ?_, ?_⟩ <;>
      simp [setEnvironmentalData, updateFrequencies_env_frame]
  · with_unfolding_all decide

/-! ### Claim C5 -/

/-- What `updateFrequencies` does to the gain nodes: nothing, unless
`rainfall > 0`, in which case every positive-gain node's schedule is
replaced by the tremolo schedule. -/
lemma updateFrequencies_gainNodes (P : Prims) (r1 r2 r3 now : ℚ) (e : Engine)
    (hrun : e.isRunning = true) :
    (updateFrequencies P r1 r2 r3 now e).gainNodes =
      if jsLt (some 0) e.rainfall then
        e.gainNodes.map (applyTremolo P now (some (4 + r3 * 2))
          (jsAdd (some 0.1) (jsMul (jsMin (jsDiv e.rainfall (some 10)) (some 1)) (some 0.7))))
      else e.gainNodes := by
  unfold updateFrequencies
  rw [if_neg (by simp [hrun])]

/-- A started engine with rain falling and voice 0 mid-envelope: its gain
is 0.1 and the Pulse Scheduler's in-flight ramp toward 0.08 is still
scheduled. -/
def rainyEngine : Engine :=
  { startedEngine with
    rainfall := some 5,
    gainNodes :=
      { value := some 0.1, events := [GEvent.ramp (some 0.08) (some 3)] } ::
        List.replicate 7 { value := some 0, events := [] } }

/-- C5 counterexample: with `rainfall = 5`, an environmental update does
not superimpose the tremolo on top of the scheduler's in-flight envelope
segment — it cancels it.  Voice 0's pending ramp to 0.08 is present before
`updateFrequencies` and gone afterwards. -/
theorem C5_rainfall_cancels_ramp_counterexample :
    ((rainyEngine.gainNodes.get? 0).map
        (fun g => g.events.contains (GEvent.ramp (some 0.08) (some 3))) = some true)
    ∧ (((updateFrequencies P0 0.5 0.5 0.5 0 rainyEngine).gainNodes.get? 0).map
        (fun g => g.events.contains (GEvent.ramp (some 0.08) (some 3))) = some false) := by
  with_unfolding_all decide

/-- C5 amended: the environmental-update path leaves every voice's gain
value untouched, and leaves the whole gain schedule untouched whenever
`rainfall > 0` does not hold (including NaN rainfall).  When
`rainfall > 0`, each zero-or-NaN-gain node is untouched, but each node
with positive current gain has its scheduled envelope segments cancelled
and replaced by the ~2 s tremolo ramp schedule (rate `4 + r3·2` Hz, depth
scaling with rainfall) — not superimposed on them. -/
theorem C5_env_update_gain_policy (P : Prims) (r1 r2 r3 now : ℚ) (e : Engine)
    (hrun : e.isRunning = true) :
    (jsLt (some 0) e.rainfall = false →
        (updateFrequencies P r1 r2 r3 now e).gainNodes = e.gainNodes)
    ∧ (jsLt (some 0) e.rainfall = true →
        (updateFrequencies P r1 r2 r3 now e).gainNodes =
          e.gainNodes.map (applyTremolo P now (some (4 + r3 * 2))
            (jsAdd (some 0.1) (jsMul (jsMin (jsDiv e.rainfall (some 10)) (some 1)) (some 0.7)))))
    ∧ (∀ (tr td : JSNum) (g : Node),
        jsLt (some 0) g.value = false → applyTremolo P now tr td g = g)
    ∧ (∀ (tr td : JSNum) (g : Node),
        jsLt (some 0) g.value = true →
          applyTremolo P now tr td g =
            { value := g.value,
              events := GEvent.setV g.value (some now) ::
                tremoloEvents P now tr td g.value })
    ∧ (∀ (tr td : JSNum) (g : Node), (applyTremolo P now tr td g).value = g.value) := by
  refine ⟨fun h => ?_, fun h => ?_, fun tr td g h => ?_, fun tr td g h => ?_,
    fun tr td g => ?_⟩
  · rw [updateFrequencies_gainNodes P r1 r2 r3 now e hrun, h]
    simp
  · rw [updateFrequencies_gainNodes P r1 r2 r3 now e hrun, h]
    simp
  · simp [applyTremolo, h]
  · simp [applyTremolo, h]
  · unfold applyTremolo
    split <;> rfl

/-- Witness for C5 (amended) at the started engine, where rainfall is 0. -/
theorem C5_env_update_gain_policy_witness :
    (jsLt (some 0) startedEngine.rainfall = false →
        (updateFrequencies P0 0.5 0.5 0.5 0 startedEngine).gainNodes =
          startedEngine.gainNodes)
    ∧ (jsLt (some 0) startedEngine.rainfall = true →
        (updateFrequencies P0 0.5 0.5 0.5 0 startedEngine).gainNodes =
          startedEngine.gainNodes.map (applyTremolo P0 0 (some (4 + 0.5 * 2))
            (jsAdd (some 0.1)
              (jsMul (jsMin (jsDiv startedEngine.rainfall (some 10)) (some 1)) (some 0.7)))))
    ∧ (∀ (tr td : JSNum) (g : Node),
        jsLt (some 0) g.value = false → applyTremolo P0 0 tr td g = g)
    ∧ (∀ (tr td : JSNum) (g : Node),
        jsLt (some 0) g.value = true →
          applyTremolo P0 0 tr td g =
            { value := g.value,
              events := GEvent.setV g.value (some 0) ::
                tremoloEvents P0 0 tr td g.value })
    ∧ (∀ (tr td : JSNum) (g : Node), (applyTremolo P0 0 tr td g).value = g.value) :=
  C5_env_update_gain_policy P0 0.5 0.5 0.5 0 startedEngine rfl

/-! ### Claims C3 and C4 -/

/-- The 8 fresh outer wait timers scheduled by the loop of `setMode` /
`startSporadicOscillators`, with consecutive handles starting at `n`. -/
def freshEight (n : ℕ) : List STimer :=
  [{ id := n, voice := 0, kind := .outer },
   { id := n + 1, voice := 1, kind := .outer },
   { id := n + 2, voice := 2, kind := .outer },
   { id := n + 3, voice := 3, kind := .outer },
   { id := n + 4, voice := 4, kind := .outer },
   { id := n + 5, voice := 5, kind := .outer },
   { id := n + 6, voice := 6, kind := .outer },
   { id := n + 7, voice := 7, kind := .outer }]

/-- The handles of `freshEight n`, as recorded in `sporadicTimers`. -/
def freshIds (n : ℕ) : List ℕ :=
  [n, n + 1, n + 2, n + 3, n + 4, n + 5, n + 6, n + 7]

/-- When every pending timer is tracked in `sporadicTimers` (that is, every
voice is in its waiting phase), `setMode` really does cancel everything and
restart: the resulting state has exactly the 8 fresh outer timers. -/
lemma setModeS_clean (s : Sched) (m : Mode)
    (htr : ∀ t ∈ s.pending, t.id ∈ s.sporadicTimers) :
    setModeS s m =
      { isRunning := s.isRunning, mode := m, waveform := s.waveform,
        nextId := s.nextId + 8, pending := freshEight s.nextId,
        sporadicTimers := freshIds s.nextId } := by
  have hfil : s.pending.filter (fun t => ¬ t.id ∈ s.sporadicTimers) = [] := by
    rw [List.filter_eq_nil_iff]
    intro t ht
    simp [htr t ht]
  unfold setModeS setWaveformS
  simp only [hfil]
  rfl

/-- Every fresh timer is tracked. -/
lemma freshEight_tracked (n : ℕ) :
    ∀ t ∈ freshEight n, t.id ∈ freshIds n := by
  intro t ht
  fin_cases ht <;> simp [freshIds]

/-- C3 counterexample: from a running state in which voice 0 is holding
(its pending timer is the untracked inner timer 8) and voices 1-7 are
waiting, the round trip `setMode('drone'); setMode('pulse');
setMode('drone')` leaves 9 pending timers, not 8 — the inner hold timer
survives all three switches because it was never recorded in
`sporadicTimers` — and when it later fires it spawns a second chain for
voice 0. -/
theorem C3_holding_voice_counterexample :
    ((setModeS (setModeS (setModeS schedHolding .drone) .pulse) .drone).pending.length = 9)
    ∧ chainCount
        (fire (setModeS (setModeS (setModeS schedHolding .drone) .pulse) .drone) 8) 0 = 2 := by
  decide

/-- C3 amended: if every voice is in its waiting (or post-fade-out) phase —
equivalently, every pending timer is recorded in `sporadicTimers` — then
the round trip `setMode('drone'); setMode('pulse'); setMode('drone')`
leaves exactly 8 live scheduler chains, one per voice, all of them again
tracked.  (A voice whose pending timer is the untracked inner hold timer
instead keeps that timer through the switches, which later duplicates its
chain; see the counterexample.) -/
theorem C3_roundtrip_when_all_tracked (s : Sched)
    (htr : ∀ t ∈ s.pending, t.id ∈ s.sporadicTimers) :
    ((setModeS (setModeS (setModeS s .drone) .pulse) .drone).pending.length = 8)
    ∧ (∀ v, v < 8 →
        chainCount (setModeS (setModeS (setModeS s .drone) .pulse) .drone) v = 1)
    ∧ (∀ t ∈ (setModeS (setModeS (setModeS s .drone) .pulse) .drone).pending,
        t.id ∈ (setModeS (setModeS (setModeS s .drone) .pulse) .drone).sporadicTimers) := by
  have h1 := setModeS_clean s .drone htr
  have htr1 : ∀ t ∈ (setModeS s .drone).pending,
      t.id ∈ (setModeS s .drone).sporadicTimers := by
    rw [h1]
    exact freshEight_tracked s.nextId
  have h2 := setModeS_clean (setModeS s .drone) .pulse htr1
  have htr2 : ∀ t ∈ (setModeS (setModeS s .drone) .pulse).pending,
      t.id ∈ (setModeS (setModeS s .drone) .pulse).sporadicTimers := by
    rw [h2]
    exact freshEight_tracked _
  have h3 := setModeS_clean (setModeS (setModeS s .drone) .pulse) .drone htr2
  rw [h3]
  refine ⟨by simp [freshEight], ?_, freshEight_tracked _⟩
  intro v hv
  interval_cases v <;> simp [chainCount, freshEight]

/-- Witness for C3 (amended) at the all-waiting state. -/
theorem C3_roundtrip_when_all_tracked_witness :
    ((setModeS (setModeS (setModeS schedWaiting .drone) .pulse) .drone).pending.length = 8)
    ∧ (∀ v, v < 8 →
        chainCount (setModeS (setModeS (setModeS schedWaiting .drone) .pulse) .drone) v = 1)
    ∧ (∀ t ∈ (setModeS (setModeS (setModeS schedWaiting .drone) .pulse) .drone).pending,
        t.id ∈ (setModeS (setModeS (setModeS schedWaiting .drone) .pulse) .drone).sporadicTimers) :=
  C3_roundtrip_when_all_tracked schedWaiting (by decide)

/-- C4 counterexample: on a running engine with all 8 wait timers pending,
`setWaveform` cancels nothing and restarts nothing — the pending schedule
is exactly the one scheduled before the call, and entries scheduled under
the old configuration are still pending afterwards. -/
theorem C4_setWaveform_counterexample :
    (setWaveformS schedWaiting .square).pending = schedWaiting.pending
    ∧ schedWaiting.pending ≠ []
    ∧ ∃ t ∈ (setWaveformS schedWaiting .square).pending, t ∈ schedWaiting.pending := by
  refine ⟨rfl, by decide, ?_⟩
  exact ⟨{ id := 0, voice := 0, kind := .outer }, by decide, by decide⟩

/-- C4 amended: `setMode` cancels every entry recorded in `sporadicTimers`
and restarts all 8 per-voice cycles with fresh timers (so, when no voice is
mid-cycle, all 8 outstanding entries are cancelled and replaced); but
`setWaveform` only re-timbres the oscillators: it cancels nothing and
leaves the pending schedule exactly unchanged, and a mid-cycle (inner,
untracked) entry also survives `setMode`. -/
theorem C4_setMode_restarts_setWaveform_does_not (s : Sched) (m : Mode)
    (w : Waveform) (htr : ∀ t ∈ s.pending, t.id ∈ s.sporadicTimers) :
    ((setWaveformS s w).pending = s.pending
      ∧ (setWaveformS s w).sporadicTimers = s.sporadicTimers)
    ∧ ((setModeS s m).pending.length = 8
      ∧ (∀ v, v < 8 → chainCount (setModeS s m) v = 1)
      ∧ ∀ t ∈ (setModeS s m).pending, s.nextId ≤ t.id) := by
  refine ⟨⟨rfl, rfl⟩, ?_, ?_, ?_⟩
  · rw [setModeS_clean s m htr]
    simp [freshEight]
  · rw [setModeS_clean s m htr]
    intro v hv
    interval_cases v <;> simp [chainCount, freshEight]
  · rw [setModeS_clean s m htr]
    intro t ht
    fin_cases ht <;> simp

/-- Witness for C4 (amended) at the all-waiting state. -/
theorem C4_setMode_restarts_setWaveform_does_not_witness :
    ((setWaveformS schedWaiting .square).pending = schedWaiting.pending
      ∧ (setWaveformS schedWaiting .square).sporadicTimers = schedWaiting.sporadicTimers)
    ∧ ((setModeS schedWaiting .pulse).pending.length = 8
      ∧ (∀ v, v < 8 → chainCount (setModeS schedWaiting .pulse) v = 1)
      ∧ ∀ t ∈ (setModeS schedWaiting .pulse).pending, schedWaiting.nextId ≤ t.id) :=
  C4_setMode_restarts_setWaveform_does_not schedWaiting .pulse .square (by decide)

/-! ### Claim C6 -/

/-- C6 counterexample: even granting `Math.pow(2, ·)` its true properties
(monotone, value 1 at 0 — here witnessed by the monotone function
`1 + x`), the slendro and pelog ratio sequences are not monotonically
non-decreasing: they are octave-stacked copies of a base scale, and each
copy restarts below the previous copy's top (slendro drops from
`1.87·2 = 3.74` to `1·3 = 3`, pelog from `1.888·2 = 3.776` to `1·3 = 3`). -/
theorem C6_slendro_pelog_counterexample :
    Monotone (fun x : ℚ => 1 + x) ∧ (fun x : ℚ => 1 + x) 0 = 1
    ∧ ¬ List.Chain' (· ≤ ·) (scaleRatioTable (fun x => 1 + x) Scale.slendro)
    ∧ ¬ List.Chain' (· ≤ ·) (scaleRatioTable (fun x => 1 + x) Scale.pelog) := by
  refine ⟨fun a b h => by simpa using h, by norm_num, ?_, ?_⟩
  · norm_num [scaleRatioTable, slendroBase, List.chain'_cons]
  · norm_num [scaleRatioTable, pelogBase, List.chain'_cons]

/-- C6 amended: for any monotone `pow2` with `pow2 0 = 1` (as the real
`Math.pow(2, ·)` is), every one of the five scale tables starts at ratio
1.0, and the dreyblatt, harmonic and quartertone tables are monotonically
non-decreasing; but the slendro and pelog tables are **not** monotone —
their octave-stacked structure makes them dip at each copy boundary. -/
theorem C6_scale_table_shape (pow2 : ℚ → ℚ) (hmono : Monotone pow2)
    (h1 : pow2 0 = 1) :
    ((scaleRatioTable pow2 .dreyblatt).head? = some 1
      ∧ List.Chain' (· ≤ ·) (scaleRatioTable pow2 .dreyblatt))
    ∧ ((scaleRatioTable pow2 .harmonic).head? = some 1
      ∧ List.Chain' (· ≤ ·) (scaleRatioTable pow2 .harmonic))
    ∧ ((scaleRatioTable pow2 .quartertone).head? = some 1
      ∧ List.Chain' (· ≤ ·) (scaleRatioTable pow2 .quartertone))
    ∧ ((scaleRatioTable pow2 .slendro).head? = some 1
      ∧ ¬ List.Chain' (· ≤ ·) (scaleRatioTable pow2 .slendro))
    ∧ ((scaleRatioTable pow2 .pelog).head? = some 1
      ∧ ¬ List.Chain' (· ≤ ·) (scaleRatioTable pow2 .pelog)) := by
  refine ⟨⟨by norm_num [scaleRatioTable], ?_⟩, ⟨by norm_num [scaleRatioTable], ?_⟩,
    ⟨?_, ?_⟩, ⟨by norm_num [scaleRatioTable, slendroBase], ?_⟩,
    ⟨by norm_num [scaleRatioTable, pelogBase], ?_⟩⟩
  · norm_num [scaleRatioTable, List.chain'_cons]
  · norm_num [scaleRatioTable, List.chain'_cons]
  · show ((List.range 24).map (fun i : ℕ => pow2 ((i : ℚ) / 24))).head? = some 1
    have h24 : List.range 24 = 0 :: List.range' 1 23 := by decide
    rw [h24]
    simp [h1]
  · show List.Chain' (· ≤ ·) ((List.range 24).map (fun i : ℕ => pow2 ((i : ℚ) / 24)))
    refine List.chain'_map_of_chain' (fun i : ℕ => pow2 ((i : ℚ) / 24))
      (fun a b hab => hmono ?_)
      ((List.chain'_range_succ (· ≤ ·) 23).mpr fun m _ => Nat.le_succ m)
    have hc : (a : ℚ) ≤ (b : ℚ) := by exact_mod_cast hab
    linarith
  · norm_num [scaleRatioTable, slendroBase, List.chain'_cons]
  · norm_num [scaleRatioTable, pelogBase, List.chain'_cons]

/-- Witness for C6 (amended) at the monotone function `1 + x`. -/
theorem C6_scale_table_shape_witness :
    ((scaleRatioTable (fun x => 1 + x) .dreyblatt).head? = some 1
      ∧ List.Chain' (· ≤ ·) (scaleRatioTable (fun x => 1 + x) .dreyblatt))
    ∧ ((scaleRatioTable (fun x => 1 + x) .harmonic).head? = some 1
      ∧ List.Chain' (· ≤ ·) (scaleRatioTable (fun x => 1 + x) .harmonic))
    ∧ ((scaleRatioTable (fun x => 1 + x) .quartertone).head? = some 1
      ∧ List.Chain' (· ≤ ·) (scaleRatioTable (fun x => 1 + x) .quartertone))
    ∧ ((scaleRatioTable (fun x => 1 + x) .slendro).head? = some 1
      ∧ ¬ List.Chain' (· ≤ ·) (scaleRatioTable (fun x => 1 + x) .slendro))
    ∧ ((scaleRatioTable (fun x => 1 + x) .pelog).head? = some 1
      ∧ ¬ List.Chain' (· ≤ ·) (scaleRatioTable (fun x => 1 + x) .pelog)) :=
  C6_scale_table_shape (fun x => 1 + x) (fun a b h => by simpa using h) (by norm_num)

/-! ### Tone selection bounds (for claims C7 and C10) -/

/-- An in-range subscript returns a member of the table. -/
lemma idxGet_mem (r : List ℚ) (i : ℤ) (h0 : 0 ≤ i)
    (hlt : i < (r.length : ℤ)) :
    ∃ q ∈ r, idxGet r (some i) = some q := by
  have hnat : i.toNat < r.length := by omega
  refine ⟨r.get ⟨i.toNat, hnat⟩, List.get_mem _ _ _, ?_⟩
  show (if h : 0 ≤ i ∧ i.toNat < r.length then some (r.get ⟨i.toNat, h.2⟩)
    else none) = _
  rw [dif_pos ⟨h0, hnat⟩]

/-- A subscript clamped by `Math.min(·, length - 1)` returns a member of
the table whenever the unclamped index is nonnegative. -/
lemma idxGet_clamp_mem (r : List ℚ) (i : ℤ) (h0 : 0 ≤ i)
    (hr : 1 ≤ r.length) :
    ∃ q ∈ r, idxGet r (some (min i ((r.length : ℤ) - 1))) = some q :=
  idxGet_mem r _ (le_min h0 (by omega)) (by omega)

/-- The JS `%` by 360 of a nonnegative number lies in `[0, 360)`. -/
lemma jsModQ_nonneg_lt (a : ℚ) (ha : 0 ≤ a) :
    0 ≤ jsModQ a 360 ∧ jsModQ a 360 < 360 := by
  unfold jsModQ jsTrunc
  rw [if_pos (by positivity : (0 : ℚ) ≤ a / 360)]
  have h1 : (⌊a / 360⌋ : ℚ) ≤ a / 360 := Int.floor_le _
  have h2 : a / 360 < ⌊a / 360⌋ + 1 := Int.lt_floor_add_one _
  have hx : a = 360 * (a / 360) := by field_simp
  constructor <;> nlinarith

/-- Every branch of the tone selection returns exactly 6 entries. -/
lemma selectTones_length (r : List ℚ) (heading : JSNum) :
    (selectTones r heading).length = 6 := by
  simp only [selectTones]
  split_ifs <;> rfl

/-- For a table of at least 16 ratios and a nonnegative heading, every
entry the tone selection returns is a defined member of the table: in each
quadrant the start index is nonnegative and every subscript is in range
(for quadrant N because the start index is at most 3 and the first stride
is `min 4 (L-10) = 4`; elsewhere because of the `Math.min(·, L-1)`
clamping). -/
lemma selectTones_mem (r : List ℚ) (hL : 16 ≤ r.length) (h : ℚ)
    (hh : 0 ≤ h) :
    ∀ x ∈ selectTones r (some h), ∃ q ∈ r, x = some q := by
  have hmod : jsMod (some h) (some 360) = some (jsModQ h 360) := by
    simp [jsMod]
  obtain ⟨ha0, ha360⟩ := jsModQ_nonneg_lt h hh
  unfold selectTones
  rw [hmod]
  simp only [jsLt, decide_eq_true_eq]
  set a := jsModQ h 360 with ha
  split_ifs with h1 h2 h3
  · -- quadrant N: 0 ≤ a < 90
    have hm : (min 4 ((r.length : ℤ) - 10)) = 4 := by omega
    rw [hm]
    simp only [jsDiv, jsMul, jsFloorI, idxAdd, idxMin, Option.map_some']
    rw [if_neg (by norm_num : ¬ (90 : ℚ) = 0)]
    have hsi0 : 0 ≤ ⌊a / 90 * ((4 : ℤ) : ℚ)⌋ := by
      refine Int.floor_nonneg.mpr ?_
      have : 0 ≤ a / 90 := by positivity
      push_cast
      linarith
    have hsi3 : ⌊a / 90 * ((4 : ℤ) : ℚ)⌋ < 4 := by
      refine Int.floor_lt.mpr ?_
      push_cast
      nlinarith
    intro x hx
    simp only [List.mem_cons, List.not_mem_nil, or_false] at hx
    rcases hx with rfl | rfl | rfl | rfl | rfl | rfl
    · exact idxGet_mem r _ hsi0 (by omega)
    · exact idxGet_clamp_mem r _ (by omega) (by omega)
    · exact idxGet_clamp_mem r _ (by omega) (by omega)
    · exact idxGet_clamp_mem r _ (by omega) (by omega)
    · exact idxGet_clamp_mem r _ (by omega) (by omega)
    · exact idxGet_clamp_mem r _ (by omega) (by omega)
  · -- quadrant E: 90 ≤ a < 180
    simp only [jsDiv, jsSub, jsMul, jsAdd, jsFloorI, idxAdd, idxMin, Option.map_some']
    rw [if_neg (by norm_num : ¬ (90 : ℚ) = 0)]
    have hm0 : (0 : ℤ) ≤ min 5 ((r.length : ℤ) - 15) := by omega
    have hsi0 : 0 ≤ ⌊(5 : ℚ) + (a - 90) / 90 * ((min 5 ((r.length : ℤ) - 15) : ℤ) : ℚ)⌋ := by
      refine Int.floor_nonneg.mpr ?_
      have ht : 0 ≤ (a - 90) / 90 := by
        have : (0 : ℚ) ≤ a - 90 := by linarith
        positivity
      have hc : (0 : ℚ) ≤ ((min 5 ((r.length : ℤ) - 15) : ℤ) : ℚ) := by
        exact_mod_cast hm0
      nlinarith
    intro x hx
    simp only [List.mem_cons, List.not_mem_nil, or_false] at hx
    rcases hx with rfl | rfl | rfl | rfl | rfl | rfl <;>
      exact idxGet_clamp_mem r _ (by omega) (by omega)
  · -- quadrant S: 180 ≤ a < 270
    simp only [jsDiv, jsSub, jsMul, jsAdd, jsFloorI, idxAdd, idxMin, Option.map_some']
    rw [if_neg (by norm_num : ¬ (90 : ℚ) = 0)]
    have hm0 : (0 : ℤ) ≤ min 6 ((r.length : ℤ) - 16) := by omega
    have hsi0 : 0 ≤ ⌊(10 : ℚ) + (a - 180) / 90 * ((min 6 ((r.length : ℤ) - 16) : ℤ) : ℚ)⌋ := by
      refine Int.floor_nonneg.mpr ?_
      have ht : 0 ≤ (a - 180) / 90 := by
        have : (0 : ℚ) ≤ a - 180 := by linarith
        positivity
      have hc : (0 : ℚ) ≤ ((min 6 ((r.length : ℤ) - 16) : ℤ) : ℚ) := by
        exact_mod_cast hm0
      nlinarith
    intro x hx
    simp only [List.mem_cons, List.not_mem_nil, or_false] at hx
    rcases hx with rfl | rfl | rfl | rfl | rfl | rfl
    · exact idxGet_clamp_mem r _ (by omega) (by omega)
    · exact idxGet_clamp_mem r _ (by omega) (by omega)
    · exact idxGet_clamp_mem r _ (by omega) (by omega)
    · exact idxGet_clamp_mem r _ (by omega) (by omega)
    · exact idxGet_clamp_mem r _ (by omega) (by omega)
    · exact idxGet_mem r _ (by omega) (by omega)
  · -- quadrant W: 270 ≤ a < 360
    simp only [jsDiv, jsSub, jsMul, jsFloorI, idxAdd, idxMin, Option.map_some']
    rw [if_neg (by norm_num : ¬ (90 : ℚ) = 0)]
    have hsi0 : 0 ≤ ⌊(a - 270) / 90 * (3 : ℚ)⌋ := by
      refine Int.floor_nonneg.mpr ?_
      have ht : 0 ≤ (a - 270) / 90 := by
        have : (0 : ℚ) ≤ a - 270 := by linarith
        positivity
      nlinarith
    intro x hx
    simp only [List.mem_cons, List.not_mem_nil, or_false] at hx
    rcases hx with rfl | rfl | rfl | rfl | rfl | rfl
    · exact idxGet_clamp_mem r _ (by omega) (by omega)
    · exact idxGet_clamp_mem r _ (by omega) (by omega)
    · exact idxGet_clamp_mem r _ (by omega) (by omega)
    · exact idxGet_clamp_mem r _ (by omega) (by omega)
    · exact idxGet_clamp_mem r _ (by omega) (by omega)
    · exact idxGet_mem r _ (by omega) (by omega)

/-- Each of the five named scale tables has at least 16 entries
(20, 20, 20, 21 and 24 respectively). -/
lemma scaleRatioTable_long (pow2 : ℚ → ℚ) (s : Scale) (hs : s ≠ .other) :
    16 ≤ (scaleRatioTable pow2 s).length := by
  cases s
  · norm_num [scaleRatioTable]
  · norm_num [scaleRatioTable]
  · norm_num [scaleRatioTable, slendroBase]
  · norm_num [scaleRatioTable, pelogBase]
  · norm_num [scaleRatioTable]
  · exact absurd rfl hs

/-! ### Claim C7 -/

/-- C7 counterexample: at the negative heading −50° (JS `%` keeps the sign
of the dividend, so the normalized heading is still −50 and the
quadrant-N start index `Math.floor((-50/90)*4) = -3` is negative), the
first returned entry is `undefined`, which is not a ratio selected from
the scale's ratio sequence. -/
theorem C7_negative_heading_counterexample :
    (getScaleTones (fun x => 1 + x) Scale.dreyblatt (some (-50))).head? =
      some none
    ∧ ∀ r ∈ scaleRatioTable (fun x => 1 + x) Scale.dreyblatt,
        (none : JSNum) ≠ some r := by
  constructor
  · with_unfolding_all decide
  · intro r _ h
    exact Option.noConfusion h

/-- C7 amended: `getScaleTones` is a pure, deterministic function of
(scale, heading) — two calls with identical arguments give identical
output, and the output always has exactly 6 entries; and for the five
recognized scales and any nonnegative heading each entry is a ratio from
the active scale's ratio sequence.  (For negative headings, or for the
6-entry fallback table of an unrecognized scale, entries can be
`undefined`; see the counterexample and claim C10.) -/
theorem C7_deterministic_six_from_table (pow2 : ℚ → ℚ) (s : Scale) :
    (∀ heading : JSNum,
        getScaleTones pow2 s heading = getScaleTones pow2 s heading
        ∧ (getScaleTones pow2 s heading).length = 6)
    ∧ (∀ h : ℚ, s ≠ .other → 0 ≤ h →
        ∀ x ∈ getScaleTones pow2 s (some h),
          ∃ r ∈ scaleRatioTable pow2 s, x = some r) := by
  refine ⟨fun heading => ⟨rfl, selectTones_length _ _⟩, fun h hs hh => ?_⟩
  exact selectTones_mem _ (scaleRatioTable_long pow2 s hs) h hh

/-- Witness for C7 (amended) at the dreyblatt scale, heading 45°. -/
theorem C7_deterministic_six_from_table_witness :
    ((getScaleTones (fun x => 1 + x) Scale.dreyblatt (some 45)).length = 6)
    ∧ (Scale.dreyblatt ≠ Scale.other)
    ∧ ((0 : ℚ) ≤ 45)
    ∧ (∀ x ∈ getScaleTones (fun x => 1 + x) Scale.dreyblatt (some 45),
        ∃ r ∈ scaleRatioTable (fun x => 1 + x) Scale.dreyblatt, x = some r) :=
  ⟨((C7_deterministic_six_from_table (fun x => 1 + x) Scale.dreyblatt).1 (some 45)).2,
   by decide, by norm_num,
   (C7_deterministic_six_from_table (fun x => 1 + x) Scale.dreyblatt).2 45
     (by decide) (by norm_num)⟩

/-! ### Claim C10 -/

/-- C10 counterexample: for the fallback ratio table (unrecognized scale
name, 6 entries) at heading 45°, the quadrant-N stride is
`Math.min(4, 6 - 10) = -4`, the start index is
`Math.floor(0.5 * -4) = -2`, and the first entry is `undefined` — not all
6 returned entries are defined numbers. -/
theorem C10_fallback_scale_counterexample :
    ((getScaleTones (fun x => 1 + x) Scale.other (some 45)).all Option.isSome)
      = false := by
  with_unfolding_all decide

/-- C10 amended: for the five recognized scale tables (each at least 16
entries long) and any nonnegative heading, every index computed inside
`getScaleTones` stays within the table, so all 6 returned entries are
defined numbers.  The guarantee fails for negative headings (JS `%` keeps
the sign, making the quadrant-N index negative) and for the 6-entry
fallback table (its quadrant-N/E strides `length - 10` and `length - 15`
are negative); see the counterexample and claim C7. -/
theorem C10_entries_defined_for_named_scales (pow2 : ℚ → ℚ) (s : Scale)
    (h : ℚ) (hs : s ≠ .other) (hh : 0 ≤ h) :
    ∀ x ∈ getScaleTones pow2 s (some h), x.isSome = true := by
  intro x hx
  obtain ⟨r, _, rfl⟩ :=
    selectTones_mem _ (scaleRatioTable_long pow2 s hs) h hh x hx
  rfl

/-- Witness for C10 (amended) at the slendro scale, heading 300°. -/
theorem C10_entries_defined_for_named_scales_witness :
    Scale.slendro ≠ Scale.other ∧ ((0 : ℚ) ≤ 300)
    ∧ ∀ x ∈ getScaleTones (fun x => 1 + x) Scale.slendro (some 300),
        x.isSome = true :=
  ⟨by decide, by norm_num,
   C10_entries_defined_for_named_scales (fun x => 1 + x) Scale.slendro 300
     (by decide) (by norm_num)⟩

/-! ### Claim C8 -/

/-- The six table subscripts computed by the tone selection, as a function
of the table length and the heading alone (same text as `selectTones`,
with the lookups stripped). -/
def selectIdxs (len : ℕ) (heading : JSNum) : List (Option ℤ) :=
  let headingNorm := jsMod heading (some 360)
  let L : ℤ := len
  if jsLt headingNorm (some 90) then
    let t := jsDiv headingNorm (some 90)
    let startIdx := jsFloorI (jsMul t (some ((min 4 (L - 10) : ℤ) : ℚ)))
    [startIdx, idxMin (idxAdd startIdx 2) (L - 1), idxMin (idxAdd startIdx 4) (L - 1),
     idxMin (idxAdd startIdx 6) (L - 1), idxMin (idxAdd startIdx 8) (L - 1),
     idxMin (idxAdd startIdx 10) (L - 1)]
  else if jsLt headingNorm (some 180) then
    let t := jsDiv (jsSub headingNorm (some 90)) (some 90)
    let startIdx :=
      jsFloorI (jsAdd (some 5) (jsMul t (some ((min 5 (L - 15) : ℤ) : ℚ))))
    [idxMin startIdx (L - 1), idxMin (idxAdd startIdx 1) (L - 1),
     idxMin (idxAdd startIdx 3) (L - 1), idxMin (idxAdd startIdx 5) (L - 1),
     idxMin (idxAdd startIdx 7) (L - 1), idxMin (idxAdd startIdx 9) (L - 1)]
  else if jsLt headingNorm (some 270) then
    let t := jsDiv (jsSub headingNorm (some 180)) (some 90)
    let startIdx :=
      jsFloorI (jsAdd (some 10) (jsMul t (some ((min 6 (L - 16) : ℤ) : ℚ))))
    [idxMin startIdx (L - 1), idxMin (idxAdd startIdx 2) (L - 1),
     idxMin (idxAdd startIdx 4) (L - 1), idxMin (idxAdd startIdx 6) (L - 1),
     idxMin (idxAdd startIdx 8) (L - 1), some (L - 1)]
  else
    let t := jsDiv (jsSub headingNorm (some 270)) (some 90)
    let spread := jsFloorI (jsMul t (some 3))
    [idxMin (idxAdd spread 0) (L - 1), idxMin (idxAdd spread 4) (L - 1),
     idxMin (idxAdd spread 8) (L - 1), idxMin (idxAdd spread 12) (L - 1),
     idxMin (idxAdd spread 16) (L - 1), some (L - 1)]

/-- The tone selection is the subscript computation followed by the table
lookups. -/
lemma selectTones_eq_map (r : List ℚ) (heading : JSNum) :
    selectTones r heading = (selectIdxs r.length heading).map (idxGet r) := by
  simp only [selectTones, selectIdxs]
  split_ifs <;> rfl

set_option maxRecDepth 8192 in
set_option maxHeartbeats 1000000 in
/-- C8: for every supported tonal scale, the 6-ratio sets selected at
headings 89.9° and 90.1° overlap in at least one ratio value: heading
89.9° (quadrant N) selects table indices {3,5,7,9,11,13} and heading
90.1° (quadrant E) selects {5,6,8,10,12,14}, so the table's index-5 ratio
is in both sets. -/
theorem C8_quadrant_boundary_overlap (pow2 : ℚ → ℚ) :
    (∃ v, v ∈ getScaleTones pow2 Scale.dreyblatt (some 89.9)
        ∧ v ∈ getScaleTones pow2 Scale.dreyblatt (some 90.1))
    ∧ (∃ v, v ∈ getScaleTones pow2 Scale.harmonic (some 89.9)
        ∧ v ∈ getScaleTones pow2 Scale.harmonic (some 90.1))
    ∧ (∃ v, v ∈ getScaleTones pow2 Scale.slendro (some 89.9)
        ∧ v ∈ getScaleTones pow2 Scale.slendro (some 90.1))
    ∧ (∃ v, v ∈ getScaleTones pow2 Scale.pelog (some 89.9)
        ∧ v ∈ getScaleTones pow2 Scale.pelog (some 90.1))
    ∧ (∃ v, v ∈ getScaleTones pow2 Scale.quartertone (some 89.9)
        ∧ v ∈ getScaleTones pow2 Scale.quartertone (some 90.1)) := by
  have hswap : ∀ s, s ≠ Scale.quartertone →
      getScaleTones pow2 s = getScaleTones (fun _ : ℚ => 0) s := by
    intro s hs
    cases s
    · rfl
    · rfl
    · rfl
    · rfl
    · exact absurd rfl hs
    · rfl
  refine ⟨⟨some (1.625 : ℚ), ?_, ?_⟩, ⟨some (6 : ℚ), ?_, ?_⟩,
    ⟨some (2 : ℚ), ?_, ?_⟩, ⟨some (1.682 : ℚ), ?_, ?_⟩, ?_⟩
  · rw [hswap _ (by decide)]
    with_unfolding_all decide
  · rw [hswap _ (by decide)]
    with_unfolding_all decide
  · rw [hswap _ (by decide)]
    with_unfolding_all decide
  · rw [hswap _ (by decide)]
    with_unfolding_all decide
  · rw [hswap _ (by decide)]
    with_unfolding_all decide
  · rw [hswap _ (by decide)]
    with_unfolding_all decide
  · rw [hswap _ (by decide)]
    with_unfolding_all decide
  · rw [hswap _ (by decide)]
    with_unfolding_all decide
  · have hlen : (scaleRatioTable pow2 Scale.quartertone).length = 24 := by
      simp [scaleRatioTable]
    have hmap1 := selectTones_eq_map (scaleRatioTable pow2 Scale.quartertone) (some 89.9)
    have hmap2 := selectTones_eq_map (scaleRatioTable pow2 Scale.quartertone) (some 90.1)
    rw [hlen] at hmap1 hmap2
    have hidx1 : selectIdxs 24 (some 89.9) =
        [some 3, some 5, some 7, some 9, some 11, some 13] := by
      with_unfolding_all decide
    have hidx2 : selectIdxs 24 (some 90.1) =
        [some 5, some 6, some 8, some 10, some 12, some 14] := by
      with_unfolding_all decide
    refine ⟨idxGet (scaleRatioTable pow2 Scale.quartertone) (some 5), ?_, ?_⟩
    · show _ ∈ selectTones (scaleRatioTable pow2 Scale.quartertone) (some 89.9)
      rw [hmap1, hidx1]
      simp
    · show _ ∈ selectTones (scaleRatioTable pow2 Scale.quartertone) (some 90.1)
      rw [hmap2, hidx2]
      simp

end Envirosines
